import Mathlib

/-!
Shallow embedding of `backend/remote_object.py` from the
raspberry-automation repository: the GPIO device abstractions
(`RemoteAbstract`, `SimpleInput`, `SimpleOutput`, `Switch`, `MotionSensor`)
and the `AlarmSystem` composite with its alert/passive state machine and
its email/photo rate limiters.

Modelling conventions:
* `__debug__` is `True` on the real device (hardware enabled); constructors
  that branch on it take an explicit `dbg : Bool` only where a claim needs
  the other branch.
* The GPIO library is modelled by `Hw : Int → Bool`: `hw p = true` means
  acquiring pin `p` succeeds, `hw p = false` means the library raises
  `GPIOZeroError` (which the code wraps into `ValueError`).
* A Python exception that propagates out of a mutating method is modelled
  as `Except (PyError × σ) σ`: the error constructor carries the state the
  object was left in when the exception escaped.
* `int(time.time())` readings and `is_active()` hardware reads are passed
  in as explicit arguments (`now`, `switch_active`, ...).
-/

/-- Python exception kinds raised by the embedded code. -/
inductive PyError where
  | valueError
  | attributeError
deriving DecidableEq, Repr

/-- Success/failure of acquiring a GPIO pin. -/
abbrev Hw := Int → Bool

/-- A gpiozero device handle: the configured `pin` attribute and the pin the
underlying hardware object currently holds (`none` once closed / never
acquired). -/
structure Device where
  pin : Int
  bound : Option Int
deriving DecidableEq, Repr

/-- `RemoteAbstract.__init__` (debug branch): `self.pin = dic["pin"]`, then
`self.device = self.Type(self.pin)`; a `GPIOZeroError` is re-raised as
`ValueError`. -/
def RemoteAbstract.init (hw : Hw) (pin : Int) : Except PyError Device :=
  if hw pin then .ok { pin := pin, bound := some pin } else .error .valueError

/-- `RemoteAbstract.close`: `self.device.close()`. -/
def Device.close (d : Device) : Device :=
  { d with bound := none }

/-- `RemoteAbstract._change_pin(new_pin)`: calls `self.close()` and then
re-acquires `self.device = self.Type(self.pin)` (note: the source reads
`self.pin`, not its `new_pin` argument). On failure the exception carries
the closed device state. -/
def Device.change_pin (hw : Hw) (d : Device) (new_pin : Int) :
    Except (PyError × Device) Device :=
  let d := d.close
  if hw d.pin then .ok { d with bound := some d.pin }
  else .error (.valueError, d)

/-- `RemoteAbstract.input(data)`: if `self.pin != data["pin"]`, set
`self.pin = data["pin"]` and call `self._change_pin(self.pin)`. -/
def Device.input (hw : Hw) (d : Device) (dataPin : Int) :
    Except (PyError × Device) Device :=
  if d.pin ≠ dataPin then
    let d := { d with pin := dataPin }
    Device.change_pin hw d d.pin
  else .ok d

/-- Last-observed values cached by input devices: `Switch` stores the strings
`"ON"`/`"OFF"`, `MotionSensor` stores an integer Unix timestamp. -/
inductive PVal where
  | s (v : String)
  | i (v : Int)
deriving DecidableEq, Repr

/-- `SimpleInput`: a device plus the cached `self.data` reading
(`None` until the first poll). -/
structure SimpleInput where
  dev : Device
  data : Option PVal
deriving DecidableEq, Repr

/-- `SimpleInput.__init__` (debug branch): acquire the device, then
`self.data = None`. -/
def SimpleInput.init (hw : Hw) (pin : Int) : Except PyError SimpleInput :=
  (RemoteAbstract.init hw pin).map fun d => { dev := d, data := none }

/-- `SimpleInput` inherits `RemoteAbstract.input` unchanged: only the device
binding is touched. -/
def SimpleInput.input (hw : Hw) (m : SimpleInput) (dataPin : Int) :
    Except (PyError × SimpleInput) SimpleInput :=
  match Device.input hw m.dev dataPin with
  | .ok d => .ok { m with dev := d }
  | .error (e, d) => .error (e, { m with dev := d })

/-- A record written to the database by `RemoteAbstract.output`: the fields of
the update and the pin used in the `query["pin"] == self.pin` match. -/
structure DbUpdate where
  data : Option PVal
  pin : Int
deriving DecidableEq, Repr

/-- `SimpleInput.output` with `data=None`: writes `{"data": self.data}` for
the record matching `self.pin`. -/
def SimpleInput.output (m : SimpleInput) : SimpleInput × DbUpdate :=
  (m, { data := m.data, pin := m.dev.pin })

/-- `MotionSensor.output`: if the sensor is active, `self.data =
int(time.time())`; otherwise `self.data` is left alone. Then delegate to
`SimpleInput.output`. The hardware read and clock are arguments. -/
def MotionSensor.output (active : Bool) (now : Int) (m : SimpleInput) :
    SimpleInput × DbUpdate :=
  let m := if active then { m with data := some (.i now) } else m
  SimpleInput.output m

/-- `Switch.output`: `self.data = "ON"` if active else `"OFF"`, then delegate
to `SimpleInput.output`. -/
def Switch.output (active : Bool) (m : SimpleInput) : SimpleInput × DbUpdate :=
  let m :=
    if active then { m with data := some (.s "ON") }
    else { m with data := some (.s "OFF") }
  SimpleInput.output m

/-- The attribute names resolvable on `super()` from inside `Switch.__init__`,
i.e. the methods defined by `SimpleInput`, `RemoteAbstract` and
`RemoteInterface` in the source (plus the universal object initializer). -/
def simpleInputSuperAttrs : List String :=
  ["__init__", "is_active", "output", "to_dic", "close", "_change_pin",
   "input", "Form"]

/-- `Switch.__init__`: the debug branch calls `super().__init__(dic)` (with
`Button`); the non-debug branch calls `super().__init(dic)` — an attribute
that does not exist on any superclass, so Python raises `AttributeError`
before any initialisation happens. -/
def Switch.init (dbg : Bool) (hw : Hw) (pin : Int) : Except PyError SimpleInput :=
  if dbg then
    SimpleInput.init hw pin
  else
    if "__init" ∈ simpleInputSuperAttrs then SimpleInput.init hw pin
    else .error .attributeError

/-- `MotionSensor.__init__` (debug branch): `super().__init__(dic, Motion)`. -/
def MotionSensor.init (hw : Hw) (pin : Int) : Except PyError SimpleInput :=
  SimpleInput.init hw pin

/-- `SimpleOutput`: a device plus the on/off level of the underlying
`OutputDevice` (initially off). -/
structure SimpleOutput where
  dev : Device
  level : Bool
deriving DecidableEq, Repr

/-- `SimpleOutput.__init__` (debug branch): `super().__init__(dic,
OutputDevice)`. -/
def SimpleOutput.init (hw : Hw) (pin : Int) : Except PyError SimpleOutput :=
  (RemoteAbstract.init hw pin).map fun d => { dev := d, level := false }

/-- `SimpleOutput.on`: `self.device.on()`. -/
def SimpleOutput.on (b : SimpleOutput) : SimpleOutput :=
  { b with level := true }

/-- `SimpleOutput.off`: `self.device.off()`. -/
def SimpleOutput.off (b : SimpleOutput) : SimpleOutput :=
  { b with level := false }

/-- The `data` dict passed to `SimpleOutput.input`: always a `"pin"` key,
and a `"keep_on"` key only when the caller supplies one (`AlarmSystem.input`
passes only `{"pin": ...}`). -/
structure OutData where
  pin : Int
  keep_on : Option Bool
deriving DecidableEq, Repr

/-- `SimpleOutput.input(data)`: `super().input(data)` (pin change), then, if
`"keep_on" in data`, switch the device on or off accordingly. -/
def SimpleOutput.input (hw : Hw) (b : SimpleOutput) (data : OutData) :
    Except (PyError × SimpleOutput) SimpleOutput :=
  match Device.input hw b.dev data.pin with
  | .error (e, d) => .error (e, { b with dev := d })
  | .ok d =>
    let b := { b with dev := d }
    match data.keep_on with
    | some true => .ok b.on
    | some false => .ok b.off
    | none => .ok b

/-- The `AlarmSystem` state: the three owned sub-devices, the configuration
mirror (`emails`, `keep_on`, `photo_toggle`), the derived sensor booleans,
and the two rate-limiter timestamps. -/
structure AlarmSys where
  pin : Int
  switch : SimpleInput
  buzzer : SimpleOutput
  motion : SimpleInput
  emails : String
  keep_on : Bool
  photo_toggle : Bool
  motion_detected : Bool
  door_open : Bool
  last_email_sent : Option Int
  last_picture_taken : Option Int
deriving DecidableEq, Repr

/-- `self.EMAIL_MAX_TIME = 3600  # 1 hour`. -/
def EMAIL_MAX_TIME : Int := 3600

/-- `self.PHOTO_MAX_TIME = 3  # 3 seconds`. -/
def PHOTO_MAX_TIME : Int := 3

/-- The configuration record consumed by `AlarmSystem.__init__` and
`AlarmSystem.input`. -/
structure AlarmData where
  pin : Int
  pin_buzzer : Int
  pin_motion : Int
  emails : String
  keep_on : Bool
  photo_toggle : Bool
deriving DecidableEq, Repr

/-- `AlarmSystem.__init__` (debug branch): construct `Switch`,
`SimpleOutput` (buzzer) and `MotionSensor` in that order inside one
`try`. On failure the exception propagates with no cleanup; the error
payload lists the pins still held by the sub-devices that were already
constructed, in construction order. -/
def AlarmSystem.init (hw : Hw) (dic : AlarmData) :
    Except (PyError × List Int) AlarmSys :=
  match Switch.init true hw dic.pin with
  | .error e => .error (e, [])
  | .ok sw =>
    match SimpleOutput.init hw dic.pin_buzzer with
    | .error e => .error (e, [dic.pin])
    | .ok bz =>
      match MotionSensor.init hw dic.pin_motion with
      | .error e => .error (e, [dic.pin, dic.pin_buzzer])
      | .ok mo =>
        .ok { pin := dic.pin, switch := sw, buzzer := bz, motion := mo,
              emails := dic.emails, keep_on := dic.keep_on,
              photo_toggle := dic.photo_toggle,
              motion_detected := false, door_open := false,
              last_email_sent := none, last_picture_taken := none }

/-- Side effects observable during one `AlarmSystem.input` call:
whether the `photo_toggle` edge trigger captured a photo, whether the
`alert_mode` rate limiter captured one, and, when an email was sent, its
recipient list. -/
structure Events where
  edge_photo : Bool
  alert_photo : Bool
  email_to : Option (List String)
deriving DecidableEq, Repr

/-- The recipient list handed to the emailer:
`self.emails.replace(" ", "").split(",")`. -/
def recipients (emails : String) : List String :=
  String.splitOn (String.replace emails " " "") ","

/-- `AlarmSystem.take_photo`: capture, then
`self.last_picture_taken = int(time.time())`. -/
def take_photo (now : Int) (s : AlarmSys) : AlarmSys :=
  { s with last_picture_taken := some now }

/-- `AlarmSystem.send_email`: email all recipients, then
`self.last_email_sent = int(time.time())`. -/
def send_email (now : Int) (s : AlarmSys) : AlarmSys × List String :=
  ({ s with last_email_sent := some now }, recipients s.emails)

/-- The email rate-limiter guard in `alert_mode`:
`self.last_email_sent is None or int(time.time()) - self.last_email_sent >
self.EMAIL_MAX_TIME`. -/
def email_due (now : Int) (s : AlarmSys) : Bool :=
  match s.last_email_sent with
  | none => true
  | some t => now - t > EMAIL_MAX_TIME

/-- The photo rate-limiter guard in `alert_mode`:
`self.last_picture_taken is None or int(time.time()) - self.last_picture_taken
> self.PHOTO_MAX_TIME`. -/
def photo_due (now : Int) (s : AlarmSys) : Bool :=
  match s.last_picture_taken with
  | none => true
  | some t => now - t > PHOTO_MAX_TIME

/-- `AlarmSystem.alert_mode`: buzzer on, then the email limiter, then the
photo limiter, each guard re-reading the clock (a single `now` here, as the
whole call happens within one second tick). -/
def alert_mode (now : Int) (s : AlarmSys) : AlarmSys × Events :=
  let s := { s with buzzer := s.buzzer.on }
  let step :=
    if email_due now s then
      let r := send_email now s
      (r.1, some r.2)
    else (s, none)
  let s := step.1
  let mail := step.2
  let step2 :=
    if photo_due now s then (take_photo now s, true) else (s, false)
  (step2.1, { edge_photo := false, alert_photo := step2.2, email_to := mail })

/-- `AlarmSystem.passive_mode`: reset `last_email_sent` to `None` when it is
set, then buzzer off. -/
def passive_mode (s : AlarmSys) : AlarmSys :=
  let s :=
    if s.last_email_sent.isSome then { s with last_email_sent := none } else s
  { s with buzzer := s.buzzer.off }

/-- The tail of `AlarmSystem.input` after the three sub-device `input`
calls: refresh `emails`/`keep_on`, derive `door_open` and `motion_detected`
from the sensors, run the `photo_toggle` edge trigger, then evaluate the
state machine. -/
def input_post (switch_active motion_active : Bool) (now : Int)
    (s : AlarmSys) (data : AlarmData) : AlarmSys × Events :=
  let s := { s with emails := data.emails }
  let s := { s with keep_on := data.keep_on }
  let s := { s with door_open := !switch_active }
  let s := { s with motion_detected := motion_active }
  let step :=
    if data.photo_toggle ≠ s.photo_toggle then
      ({ take_photo now s with photo_toggle := data.photo_toggle }, true)
    else (s, false)
  let s := step.1
  let edge := step.2
  if s.keep_on && s.door_open then
    let r := alert_mode now s
    (r.1, { r.2 with edge_photo := edge })
  else
    (passive_mode s, { edge_photo := edge, alert_photo := false,
                       email_to := none })

/-- `AlarmSystem.input(data)` (debug branch): push the configured pins into
`switch`, `buzzer` and `motion` (an exception there aborts the call with
the object in its partially-updated state), then run `input_post`. The
instantaneous `is_active()` readings and the clock are arguments. -/
def AlarmSys.input (hw : Hw) (switch_active motion_active : Bool) (now : Int)
    (s : AlarmSys) (data : AlarmData) :
    Except (PyError × AlarmSys) (AlarmSys × Events) :=
  match SimpleInput.input hw s.switch data.pin with
  | .error (e, sw) => .error (e, { s with switch := sw })
  | .ok sw =>
    let s := { s with switch := sw }
    match SimpleOutput.input hw s.buzzer { pin := data.pin_buzzer, keep_on := none } with
    | .error (e, bz) => .error (e, { s with buzzer := bz })
    | .ok bz =>
      let s := { s with buzzer := bz }
      match SimpleInput.input hw s.motion data.pin_motion with
      | .error (e, mo) => .error (e, { s with motion := mo })
      | .ok mo =>
        let s := { s with motion := mo }
        .ok (input_post switch_active motion_active now s data)

/-- The record `AlarmSystem.output` writes to the database: `door_open`
always, `motion` (a `time.strftime("%c")` string) only when motion was
detected, `photo` (the `get_newest_photo()` reference) always, matched by
`query["pin"] == self.pin`. -/
structure OutRecord where
  door_open : Bool
  motion : Option String
  photo : String
  pin : Int
deriving DecidableEq, Repr

/-- `AlarmSystem.output` (debug branch): build the record; when
`motion_detected` holds, also call `self.take_photo()` (one unconditional
capture). Returns the new state, the record written, and the number of
photos captured by the call. `now_str` stands for `time.strftime("%c")` and
`newest_photo` for `get_newest_photo()`. -/
def AlarmSys.output (now : Int) (now_str newest_photo : String)
    (s : AlarmSys) : AlarmSys × OutRecord × Nat :=
  if s.motion_detected then
    let s := take_photo now s
    (s, { door_open := s.door_open, motion := some now_str,
          photo := newest_photo, pin := s.pin }, 1)
  else
    (s, { door_open := s.door_open, motion := none,
          photo := newest_photo, pin := s.pin }, 0)

/-! ## Concrete states used by witnesses and counterexamples -/

/-- A hardware model on which every pin acquisition succeeds. -/
def hwAll : Hw := fun _ => true

/-- A hardware model on which acquiring pin 6 fails and every other pin
succeeds. -/
def hwBad6 : Hw := fun p => p != 6

/-- A concrete alarm state: disarmed, door closed, an email last sent at
time 99 (inside the cooldown at time 100), no photo taken, sub-devices
bound to pins 4/5/6. -/
def s0 : AlarmSys :=
  { pin := 4, switch := { dev := { pin := 4, bound := some 4 }, data := none },
    buzzer := { dev := { pin := 5, bound := some 5 }, level := false },
    motion := { dev := { pin := 6, bound := some 6 }, data := none },
    emails := "a@b.c, d@e.f", keep_on := false, photo_toggle := false,
    motion_detected := false, door_open := false,
    last_email_sent := some 99, last_picture_taken := none }

/-- A concrete configuration record: same pins as `s0`, armed, with the
`photo_toggle` flag flipped relative to `s0`. -/
def data0 : AlarmData :=
  { pin := 4, pin_buzzer := 5, pin_motion := 6, emails := "a@b.c, d@e.f",
    keep_on := true, photo_toggle := true }

/-- The state `AlarmSys.input hwAll false false 100 s0 data0` produces. -/
def sOut0 : AlarmSys :=
  { pin := 4, switch := { dev := { pin := 4, bound := some 4 }, data := none },
    buzzer := { dev := { pin := 5, bound := some 5 }, level := true },
    motion := { dev := { pin := 6, bound := some 6 }, data := none },
    emails := "a@b.c, d@e.f", keep_on := true, photo_toggle := true,
    motion_detected := false, door_open := true,
    last_email_sent := some 99, last_picture_taken := some 100 }

/-- The events `AlarmSys.input hwAll false false 100 s0 data0` produces. -/
def ev0 : Events :=
  { edge_photo := true, alert_photo := false, email_to := none }

/-- The configuration used to exercise a failed `AlarmSystem` construction
under `hwBad6`: the motion pin is the failing pin 6. -/
def dic5 : AlarmData :=
  { pin := 4, pin_buzzer := 5, pin_motion := 6, emails := "",
    keep_on := false, photo_toggle := false }

/-- A concrete alarm state with motion detected and a photo last taken at
time 0, used to exhibit the shared photo-cooldown state. -/
def sCex : AlarmSys :=
  { pin := 4, switch := { dev := { pin := 4, bound := some 4 }, data := none },
    buzzer := { dev := { pin := 5, bound := some 5 }, level := false },
    motion := { dev := { pin := 6, bound := some 6 }, data := none },
    emails := "", keep_on := true, photo_toggle := false,
    motion_detected := true, door_open := true,
    last_email_sent := some 0, last_picture_taken := some 0 }

/-! ## Claim theorems -/

/-- C6: reconfiguring a device to its current pin is a no-op; reconfiguring
to a different pin releases the old binding and acquires the new pin; if
that acquisition fails, the device is left unbound (not bound to the old
pin) and a `ValueError` (the wrapped `GPIOZeroError`) is raised. -/
theorem c6_reconfigure_atomic (hw : Hw) (d : Device) (p : Int) :
    (p = d.pin → Device.input hw d p = .ok d) ∧
    (p ≠ d.pin → hw p = true →
      Device.input hw d p = .ok { pin := p, bound := some p }) ∧
    (p ≠ d.pin → hw p = false →
      Device.input hw d p = .error (.valueError, { pin := p, bound := none })) := by
  refine ⟨fun h => ?_, fun h hp => ?_, fun h hp => ?_⟩
  · simp [Device.input, h]
  · simp [Device.input, Ne.symm h, Device.change_pin, Device.close, hp]
  · simp [Device.input, Ne.symm h, Device.change_pin, Device.close, hp]

/-- Witness for C6: concrete no-op, successful move from pin 4 to pin 5, and
failed move to pin 3 leaving the device unbound. -/
theorem c6_reconfigure_atomic_witness :
    Device.input (fun q => q != 3) { pin := 4, bound := some 4 } 4 =
      .ok { pin := 4, bound := some 4 } ∧
    Device.input (fun q => q != 3) { pin := 4, bound := some 4 } 5 =
      .ok { pin := 5, bound := some 5 } ∧
    Device.input (fun q => q != 3) { pin := 4, bound := some 4 } 3 =
      .error (.valueError, { pin := 3, bound := none }) :=
  ⟨(c6_reconfigure_atomic (fun q => q != 3) { pin := 4, bound := some 4 } 4).1
      rfl,
   (c6_reconfigure_atomic (fun q => q != 3) { pin := 4, bound := some 4 } 5).2.1
      (by decide) (by decide),
   (c6_reconfigure_atomic (fun q => q != 3) { pin := 4, bound := some 4 } 3).2.2
      (by decide) (by decide)⟩

/-- C9: for the pollable input devices (`Switch`, `MotionSensor`, both of
which inherit `RemoteAbstract.input` unchanged), `input` never mutates the
cached `data` reading — whether the pin change succeeds or fails. -/
theorem c9_input_preserves_data (hw : Hw) (m : SimpleInput) (p : Int) :
    (match SimpleInput.input hw m p with
     | .ok m2 => m2.data
     | .error e => e.2.data) = m.data := by
  unfold SimpleInput.input
  cases Device.input hw m.dev p with
  | ok d => simp
  | error e => simp

/-- C8: `MotionSensor.output` sets the cached reading to the current Unix
timestamp when the sensor is active and leaves it unchanged (sticky) when
it is inactive; the database record written reflects the same value. -/
theorem c8_motion_sticky (active : Bool) (now : Int) (m : SimpleInput) :
    (MotionSensor.output active now m).1.data =
      (if active then some (PVal.i now) else m.data) ∧
    (MotionSensor.output active now m).2.data =
      (if active then some (PVal.i now) else m.data) := by
  cases active <;> simp [MotionSensor.output, SimpleInput.output]

/-- C10: with `__debug__` false, `Switch.__init__` always raises
`AttributeError`: its non-debug branch calls `super().__init(dic)`, an
attribute no superclass defines, so construction never succeeds there. -/
theorem c10_switch_nodebug_init_fails (hw : Hw) (pin : Int) :
    Switch.init false hw pin = .error .attributeError := by
  simp [Switch.init, simpleInputSuperAttrs]

/-- Closed form of `alert_mode`: buzzer on, and each limiter updates its
timestamp and fires exactly when its guard holds. -/
theorem alert_mode_state (now : Int) (s : AlarmSys) :
    alert_mode now s =
      ({ s with buzzer := s.buzzer.on,
                last_email_sent :=
                  if email_due now s then some now else s.last_email_sent,
                last_picture_taken :=
                  if photo_due now s then some now else s.last_picture_taken },
       { edge_photo := false, alert_photo := photo_due now s,
         email_to :=
           if email_due now s then some (recipients s.emails) else none }) := by
  obtain ⟨p, sw, bz, mo, em, ko, pt, md, dr, les, lpt⟩ := s
  cases les <;> cases lpt <;>
    simp only [alert_mode, email_due, photo_due, send_email, take_photo] <;>
    split <;> split <;> simp_all

/-- Closed form of `passive_mode`: `last_email_sent` ends up unset (the
conditional reset), the buzzer off, and nothing else changes. -/
theorem passive_mode_state (s : AlarmSys) :
    passive_mode s = { s with last_email_sent := none, buzzer := s.buzzer.off } := by
  obtain ⟨p, sw, bz, mo, em, ko, pt, md, dr, les, lpt⟩ := s
  cases les <;> simp [passive_mode]

/-- C2: in `alert_mode`, an email goes to all recipients and
`last_email_sent` is set to `now` exactly when `last_email_sent` is unset
or `now - last_email_sent > 3600` (strict); in particular a call at
`T + 3601` sends and one at `T + 3599` does not. -/
theorem c2_email_cooldown (now T : Int) (s : AlarmSys) :
    ((alert_mode now s).2.email_to = some (recipients s.emails) ∧
       (alert_mode now s).1.last_email_sent = some now ↔
      s.last_email_sent = none ∨
        ∃ t, s.last_email_sent = some t ∧ now - t > EMAIL_MAX_TIME) ∧
    (alert_mode (T + 3601) { s with last_email_sent := some T }).2.email_to =
      some (recipients s.emails) ∧
    (alert_mode (T + 3601) { s with last_email_sent := some T }).1.last_email_sent =
      some (T + 3601) ∧
    (alert_mode (T + 3599) { s with last_email_sent := some T }).2.email_to =
      none := by
  refine ⟨?_, ?_, ?_, ?_⟩ <;> rw [alert_mode_state]
  · cases h : s.last_email_sent with
    | none => simp [email_due, h]
    | some t =>
      by_cases hd : now - t > EMAIL_MAX_TIME <;> simp [email_due, h, hd]
  · simp [email_due, EMAIL_MAX_TIME]
  · simp [email_due, EMAIL_MAX_TIME]
  · have h2 : ¬(T + 3599 - T > EMAIL_MAX_TIME) := by unfold EMAIL_MAX_TIME; omega
    simp [email_due, h2]
    unfold EMAIL_MAX_TIME
    omega

/-- C3: in `alert_mode`, a photo is captured and `last_picture_taken` set to
`now` exactly when `last_picture_taken` is unset or
`now - last_picture_taken > 3` (strict); a call at `T + 4` captures, one at
`T + 2` does not; and `passive_mode` never changes `last_picture_taken`. -/
theorem c3_photo_cooldown (now T : Int) (s : AlarmSys) :
    ((alert_mode now s).2.alert_photo = true ∧
       (alert_mode now s).1.last_picture_taken = some now ↔
      s.last_picture_taken = none ∨
        ∃ t, s.last_picture_taken = some t ∧ now - t > PHOTO_MAX_TIME) ∧
    (alert_mode (T + 4) { s with last_picture_taken := some T }).2.alert_photo =
      true ∧
    (alert_mode (T + 2) { s with last_picture_taken := some T }).2.alert_photo =
      false ∧
    (passive_mode s).last_picture_taken = s.last_picture_taken := by
  refine ⟨?_, ?_, ?_, ?_⟩
  · rw [alert_mode_state]
    cases h : s.last_picture_taken with
    | none => simp [photo_due, h]
    | some t =>
      by_cases hd : now - t > PHOTO_MAX_TIME <;> simp [photo_due, h, hd]
  · rw [alert_mode_state]
    have h2 : T + 4 - T > PHOTO_MAX_TIME := by unfold PHOTO_MAX_TIME; omega
    simp [photo_due, h2]
    unfold PHOTO_MAX_TIME
    omega
  · rw [alert_mode_state]
    have h2 : ¬(T + 2 - T > PHOTO_MAX_TIME) := by unfold PHOTO_MAX_TIME; omega
    simp [photo_due, h2]
    unfold PHOTO_MAX_TIME
    omega
  · rw [passive_mode_state]

/-- C5 counterexample: under a hardware model where only pin 6 (the motion
pin of `dic5`) fails, `AlarmSystem.__init__` propagates the error while the
switch (pin 4) and buzzer (pin 5) constructed earlier are still acquired —
the claim's requirement that they be released (leaving no acquired pins)
fails. -/
theorem c5_construction_counterexample :
    AlarmSystem.init hwBad6 dic5 = .error (.valueError, [4, 5]) ∧
    ([4, 5] : List Int) ≠ [] := by
  constructor
  · rfl
  · simp

/-- C5 (amended): if the switch and buzzer pins acquire successfully and the
motion pin fails, construction raises `ValueError` with the switch and
buzzer sub-devices still acquired (their pins are NOT released before the
error propagates). -/
theorem c5_construction_leak (hw : Hw) (dic : AlarmData)
    (h1 : hw dic.pin = true) (h2 : hw dic.pin_buzzer = true)
    (h3 : hw dic.pin_motion = false) :
    AlarmSystem.init hw dic = .error (.valueError, [dic.pin, dic.pin_buzzer]) := by
  simp [AlarmSystem.init, Switch.init, SimpleInput.init, MotionSensor.init,
        SimpleOutput.init, RemoteAbstract.init, Except.map, h1, h2, h3]

/-- Witness for C5's amended theorem at the concrete failing input. -/
theorem c5_construction_leak_witness :
    AlarmSystem.init hwBad6 dic5 = .error (.valueError, [4, 5]) :=
  c5_construction_leak hwBad6 dic5 (by decide) (by decide) (by decide)

/-- C7 counterexample: the `output()` photo capture is NOT independent of the
alert-mode rate limiter. From `sCex` (last photo at time 0), `alert_mode`
at time 102 would capture; but after `output()` captures at time 100, the
shared `last_picture_taken` becomes 100 and the same `alert_mode` call at
102 no longer captures. -/
theorem c7_output_counterexample :
    (alert_mode 102 sCex).2.alert_photo = true ∧
    (AlarmSys.output 100 "x" "p.jpg" sCex).1.last_picture_taken = some 100 ∧
    (alert_mode 102 (AlarmSys.output 100 "x" "p.jpg" sCex).1).2.alert_photo =
      false := by
  refine ⟨?_, ?_, ?_⟩ <;> rfl

/-- C7 (amended): every `output()` call reports `door_open` and the newest
photo reference for the record keyed by the controller's pin; when
`motion_detected` holds it also reports the human-readable last-motion
string and captures exactly one more photo, unconditionally (no cooldown
guard) — but that capture writes the shared `last_picture_taken`
timestamp, so it does feed the alert-mode photo limiter; when no motion
was detected the state is untouched and no photo is captured. -/
theorem c7_output_reports (now : Int) (ns np : String) (s : AlarmSys) :
    (AlarmSys.output now ns np s).2.1.door_open = s.door_open ∧
    (AlarmSys.output now ns np s).2.1.photo = np ∧
    (AlarmSys.output now ns np s).2.1.pin = s.pin ∧
    (s.motion_detected = true →
      (AlarmSys.output now ns np s).2.1.motion = some ns ∧
      (AlarmSys.output now ns np s).2.2 = 1 ∧
      (AlarmSys.output now ns np s).1.last_picture_taken = some now) ∧
    (s.motion_detected = false →
      (AlarmSys.output now ns np s).2.1.motion = none ∧
      (AlarmSys.output now ns np s).2.2 = 0 ∧
      (AlarmSys.output now ns np s).1 = s) := by
  cases h : s.motion_detected <;>
    simp [AlarmSys.output, take_photo, h]

/-- Witness for C7's amended theorem: a concrete `output()` call with motion
detected. -/
theorem c7_output_reports_witness :
    (AlarmSys.output 100 "x" "p.jpg" sCex).2.1.motion = some "x" ∧
    (AlarmSys.output 100 "x" "p.jpg" sCex).2.2 = 1 ∧
    (AlarmSys.output 100 "x" "p.jpg" sCex).1.last_picture_taken = some 100 :=
  (c7_output_reports 100 "x" "p.jpg" sCex).2.2.2.1 rfl

/-- A successful `AlarmSystem.input` call is `input_post` applied to the
state with the three sub-devices updated (the other fields untouched by the
sub-device `input` calls). -/
theorem AlarmSys.input_ok (hw : Hw) (sa ma : Bool) (now : Int)
    (s s' : AlarmSys) (data : AlarmData) (ev : Events)
    (h : AlarmSys.input hw sa ma now s data = .ok (s', ev)) :
    ∃ sw bz mo,
      input_post sa ma now
        { s with switch := sw, buzzer := bz, motion := mo } data = (s', ev) := by
  unfold AlarmSys.input at h
  cases h1 : SimpleInput.input hw s.switch data.pin with
  | error e1 => simp [h1] at h
  | ok sw =>
    simp only [h1] at h
    cases h2 : SimpleOutput.input hw s.buzzer
        { pin := data.pin_buzzer, keep_on := none } with
    | error e2 => simp [h2] at h
    | ok bz =>
      simp only [h2] at h
      cases h3 : SimpleInput.input hw s.motion data.pin_motion with
      | error e3 => simp [h3] at h
      | ok mo =>
        simp only [h3, Except.ok.injEq] at h
        exact ⟨sw, bz, mo, h⟩

/-- The state-machine part of a successful `input` call: `door_open` and
`keep_on` are refreshed, and the `ALERT`/`PASSIVE` consequences follow the
`armed AND doorOpen` rule. -/
theorem input_post_transition (sa ma : Bool) (now : Int) (s : AlarmSys)
    (data : AlarmData) :
    (input_post sa ma now s data).1.door_open = !sa ∧
    (input_post sa ma now s data).1.keep_on = data.keep_on ∧
    (data.keep_on = true ∧ sa = false →
      (input_post sa ma now s data).1.buzzer.level = true) ∧
    (¬(data.keep_on = true ∧ sa = false) →
      (input_post sa ma now s data).1.buzzer.level = false ∧
      (input_post sa ma now s data).1.last_email_sent = none ∧
      (input_post sa ma now s data).2.email_to = none ∧
      (input_post sa ma now s data).2.alert_photo = false) := by
  cases hsa : sa <;> cases hk : data.keep_on <;>
    by_cases he : data.photo_toggle ≠ s.photo_toggle <;>
      simp [input_post, hsa, hk, he, take_photo, alert_mode_state,
            passive_mode_state, SimpleOutput.on, SimpleOutput.off]

/-- The `photo_toggle` edge-trigger part of a successful `input` call. -/
theorem input_post_toggle (sa ma : Bool) (now : Int) (s : AlarmSys)
    (data : AlarmData) :
    (input_post sa ma now s data).1.photo_toggle = data.photo_toggle ∧
    ((input_post sa ma now s data).2.edge_photo = true ↔
      data.photo_toggle ≠ s.photo_toggle) ∧
    (data.photo_toggle ≠ s.photo_toggle →
      (input_post sa ma now s data).2.alert_photo = false ∧
      (input_post sa ma now s data).1.last_picture_taken = some now) := by
  cases hsa : sa <;> cases hk : data.keep_on <;>
    by_cases he : data.photo_toggle ≠ s.photo_toggle <;>
      simp [input_post, hsa, hk, he, take_photo, alert_mode_state,
            passive_mode_state, photo_due, PHOTO_MAX_TIME] <;>
      exact (not_ne_iff.mp he).symm

/-- C1: every successful `AlarmSystem.input(data)` call derives
`door_open = NOT switch.is_active()` and `keep_on` from `data`; it runs
`alert_mode` (buzzer activated) exactly when `keep_on AND door_open`, and
in every other case runs `passive_mode`, which deactivates the buzzer and
resets `last_email_sent` to unset (so no email or limiter photo fires). -/
theorem c1_alarm_transition (hw : Hw) (sa ma : Bool) (now : Int)
    (s s' : AlarmSys) (data : AlarmData) (ev : Events)
    (h : AlarmSys.input hw sa ma now s data = .ok (s', ev)) :
    s'.door_open = !sa ∧ s'.keep_on = data.keep_on ∧
    (data.keep_on = true ∧ sa = false → s'.buzzer.level = true) ∧
    (¬(data.keep_on = true ∧ sa = false) →
      s'.buzzer.level = false ∧ s'.last_email_sent = none ∧
      ev.email_to = none ∧ ev.alert_photo = false) := by
  obtain ⟨sw, bz, mo, hp⟩ := AlarmSys.input_ok hw sa ma now s s' data ev h
  have hT := input_post_transition sa ma now
    { s with switch := sw, buzzer := bz, motion := mo } data
  rw [hp] at hT
  simpa using hT

/-- Witness for C1: the concrete armed, door-open call
`AlarmSys.input hwAll false false 100 s0 data0 = .ok (sOut0, ev0)`. -/
theorem c1_alarm_transition_witness :
    sOut0.door_open = !false ∧ sOut0.buzzer.level = true := by
  have h := c1_alarm_transition hwAll false false 100 s0 sOut0 data0 ev0 rfl
  exact ⟨h.1, h.2.2.1 ⟨rfl, rfl⟩⟩

/-- C4: every successful `AlarmSystem.input(data)` call updates the stored
`photo_toggle` to the incoming flag; the edge trigger captures exactly when
the incoming flag differs from the stored one, and then it is the only
photo of the call (the alert-mode limiter is suppressed because the edge
capture just set `last_picture_taken` to `now`), whatever the resulting
state; a subsequent successful call with the same flag value does not
re-trigger. -/
theorem c4_photo_toggle_edge (hw : Hw) (sa ma : Bool) (now : Int)
    (s s' : AlarmSys) (data : AlarmData) (ev : Events)
    (h : AlarmSys.input hw sa ma now s data = .ok (s', ev)) :
    s'.photo_toggle = data.photo_toggle ∧
    (ev.edge_photo = true ↔ data.photo_toggle ≠ s.photo_toggle) ∧
    (data.photo_toggle ≠ s.photo_toggle →
      ev.edge_photo = true ∧ ev.alert_photo = false ∧
      s'.last_picture_taken = some now) ∧
    (∀ hw2 (sa2 ma2 : Bool) (now2 : Int) (s2 : AlarmSys) (data2 : AlarmData)
        (ev2 : Events), data2.photo_toggle = data.photo_toggle →
      AlarmSys.input hw2 sa2 ma2 now2 s' data2 = .ok (s2, ev2) →
      ev2.edge_photo = false) := by
  obtain ⟨sw, bz, mo, hp⟩ := AlarmSys.input_ok hw sa ma now s s' data ev h
  have hT := input_post_toggle sa ma now
    { s with switch := sw, buzzer := bz, motion := mo } data
  rw [hp] at hT
  simp only at hT
  refine ⟨hT.1, hT.2.1, fun hne => ⟨hT.2.1.mpr hne, (hT.2.2 hne).1, (hT.2.2 hne).2⟩,
    fun hw2 sa2 ma2 now2 s2 data2 ev2 heq h2 => ?_⟩
  obtain ⟨sw2, bz2, mo2, hp2⟩ := AlarmSys.input_ok hw2 sa2 ma2 now2 s' s2 data2 ev2 h2
  have hT2 := input_post_toggle sa2 ma2 now2
    { s' with switch := sw2, buzzer := bz2, motion := mo2 } data2
  rw [hp2] at hT2
  simp only at hT2
  by_contra hne
  have : ev2.edge_photo = true := by
    cases hb : ev2.edge_photo
    · exact absurd hb hne
    · rfl
  have hd := hT2.2.1.mp this
  exact hd (heq.trans hT.1.symm)

/-- Witness for C4: the concrete call `AlarmSys.input hwAll false false 100
s0 data0` flips `photo_toggle`, captures exactly the edge photo (no
alert-mode capture), and updates the stored flag. -/
theorem c4_photo_toggle_edge_witness :
    sOut0.photo_toggle = data0.photo_toggle ∧ ev0.edge_photo = true ∧
    ev0.alert_photo = false ∧ sOut0.last_picture_taken = some 100 := by
  have h := c4_photo_toggle_edge hwAll false false 100 s0 sOut0 data0 ev0 rfl
  exact ⟨h.1, (h.2.2.1 (by decide)).1, (h.2.2.1 (by decide)).2.1,
         (h.2.2.1 (by decide)).2.2⟩
